import Mathlib

/-!
Verification of the SGX derivatives-data scraper (src/util.py, src/sgx_scrap.py).

The development shallowly embeds the Python source:

* calendar dates are day numbers (days since 1970-01-01, the epoch of the
  Gregorian-calendar conversion functions below); `datetime.strptime` /
  `strftime("%Y-%m-%d")` become `parseDate` / `formatDate`;
* `estimate_date_index`, `url_generation`, `check_existence`,
  `check_date_match`, `download_files` and `download_files_within_range`
  are translated function by function from src/util.py;
* the HTTP transport is an oracle `fetch : String -> Option Response`
  (`none` models a raised `requests.exceptions.RequestException`);
* filesystem effects (directory creation, file writes) and scheduler
  effects (fetcher invocations, backoff sleeps) are recorded in explicit
  event lists;
* a Python exception escaping a function is an `Except.error`.
-/

namespace SGX

/-! ## Calendar arithmetic

Python's `datetime` is modelled by the number of days since 1970-01-01.
`daysFromCivil`/`civilFromDays` are the standard Gregorian conversions
(Euclidean-style, using floor division `Int.fdiv`, which is exactly
Python's `//`). -/

/-- Day number (days since 1970-01-01) of the civil date y-m-d. -/
def daysFromCivil (y m d : Int) : Int :=
  let y2 := if m ≤ 2 then y - 1 else y
  let era := Int.fdiv y2 400
  let yoe := y2 - era * 400
  let doy := Int.fdiv (153 * (m + (if 2 < m then (-3 : Int) else 9)) + 2) 5 + d - 1
  let doe := yoe * 365 + Int.fdiv yoe 4 - Int.fdiv yoe 100 + doy
  era * 146097 + doe - 719468

/-- Civil date (y, m, d) of a day number; inverse of `daysFromCivil`. -/
def civilFromDays (t : Int) : Int × Int × Int :=
  let z := t + 719468
  let era := Int.fdiv z 146097
  let doe := z - era * 146097
  let yoe := Int.fdiv (doe - Int.fdiv doe 1460 + Int.fdiv doe 36524 - Int.fdiv doe 146096) 365
  let y := yoe + era * 400
  let doy := doe - (365 * yoe + Int.fdiv yoe 4 - Int.fdiv yoe 100)
  let mp := Int.fdiv (5 * doy + 2) 153
  let d := doy - Int.fdiv (153 * mp + 2) 5 + 1
  let m := mp + (if mp < 10 then 3 else -9)
  (if m ≤ 2 then y + 1 else y, m, d)

/-- Python's `datetime.weekday()`: Monday = 0, ..., Sunday = 6.
1970-01-01 (day number 0) was a Thursday (= 3). -/
def pyWeekday (t : Int) : Int := (t + 3) % 7

/-- Numeric value of a decimal digit character. -/
def digitVal (c : Char) : Int := (c.toNat : Int) - 48

/-- Model of `datetime.strptime(s, "%Y-%m-%d")`: `some` day number on a
well-formed "YYYY-MM-DD" string, `none` when Python would raise
`ValueError`. -/
def parseDate (s : String) : Option Int :=
  match s.toList with
  | [y1, y2, y3, y4, s1, m1, m2, s2, d1, d2] =>
    if s1 = '-' ∧ s2 = '-' ∧
        ([y1, y2, y3, y4, m1, m2, d1, d2].all Char.isDigit) = true then
      let y := 1000 * digitVal y1 + 100 * digitVal y2 + 10 * digitVal y3 + digitVal y4
      let m := 10 * digitVal m1 + digitVal m2
      let d := 10 * digitVal d1 + digitVal d2
      if 1 ≤ m ∧ m ≤ 12 ∧ 1 ≤ d ∧ d ≤ 31 then some (daysFromCivil y m d) else none
    else none
  | _ => none

/-- Zero-pad the decimal rendering of `n` to `width` characters. -/
def padNum (width : Nat) (n : Nat) : String :=
  (List.replicate (width - (toString n).length) '0').asString ++ toString n

/-- Model of `datetime.strftime("%Y-%m-%d")` on a day number. -/
def formatDate (t : Int) : String :=
  padNum 4 (civilFromDays t).1.toNat ++ "-" ++
    padNum 2 (civilFromDays t).2.1.toNat ++ "-" ++
    padNum 2 (civilFromDays t).2.2.toNat

/-! ## KeyIndexEstimator (src/util.py, `estimate_date_index`, lines 21-42) -/

/-- The anchor of the estimator: `datetime.strptime("2025-01-06", "%Y-%m-%d")`,
a Monday (src/util.py line 34). -/
def initial_date : Int := daysFromCivil 2025 1 6

/-- The key index of the anchor date (src/util.py line 35). -/
def initial_index : Int := 5849

/-- Core arithmetic of `estimate_date_index` on day numbers:
`days_difference = (target_date - initial_date).days`,
`weekends = 2 * (days_difference // 7)`,
result `initial_index + days_difference - weekends` (src/util.py lines 37-42). -/
def date_index (target_date : Int) : Int :=
  initial_index + (target_date - initial_date)
    - 2 * Int.fdiv (target_date - initial_date) 7

/-- `estimate_date_index(date_string)` (src/util.py lines 21-42); `none` when
`strptime` raises on a malformed date string. -/
def estimate_date_index (date_string : String) : Option Int :=
  (parseDate date_string).map date_index

/-! ## ResourceLocator (src/util.py, `url_generation`, lines 86-112) -/

/-- The four file suffixes (src/util.py lines 97-102), in source order. -/
def files_to_download : List String :=
  ["WEBPXTICK_DT.zip", "TickData_structure.dat", "TC.txt", "TC_structure.dat"]

/-- The URL prefix of src/util.py line 105.  The f-string at lines 105-106 is
continued with a backslash-newline, which keeps the 12 spaces of indentation
of line 106 inside the literal, so every generated URL contains those spaces
before the index segment. -/
def url_base : String :=
  "https://links.sgx.com/1.0.0/derivatives-historical/            "

/-- `url_generation(date_string)` (src/util.py lines 86-112); `none` when the
`strptime` inside `estimate_date_index` raises on a malformed date string. -/
def url_generation (date_string : String) : Option (List String) :=
  (estimate_date_index date_string).map (fun idx =>
    files_to_download.map (fun file => url_base ++ toString idx ++ "/" ++ file))

/-! ## Responses and validation (src/util.py, lines 115-159) -/

/-- One `requests` response, as the source reads it: `status_code`,
the effective `url` (after redirects), `headers.get("Content-Disposition", "")`
(the `""` default for a missing header is baked into the field), and the
payload bytes `content`. -/
structure Response where
  status_code : Nat
  url : String
  contentDisposition : String
  content : String
deriving DecidableEq

/-- Is `needle` a contiguous prefix of `hay`?  Helper for the Python `in`
substring tests. -/
def prefixList : List Char → List Char → Bool
  | [], _ => true
  | _ :: _, [] => false
  | c :: cs, h :: hs => c = h && prefixList cs hs

/-- Does `needle` occur contiguously in `hay`?  Helper for the Python `in`
substring tests. -/
def hasSub (hay needle : List Char) : Bool :=
  match hay with
  | [] => prefixList needle []
  | _ :: rest => prefixList needle hay || hasSub rest needle

/-- Python's substring test `needle in hay` on strings. -/
def strContains (hay needle : String) : Bool := hasSub hay.toList needle.toList

/-- `check_existence(responses)` (src/util.py lines 115-133): every response
must have status code 200 and must not have been redirected to the provider's
`CustomErrorPage`. -/
def check_existence : List Response → Bool
  | [] => true
  | r :: rs =>
    if r.status_code ≠ 200 then false
    else if strContains r.url "CustomErrorPage" then false
    else check_existence rs

/-- Leftmost run of 8 consecutive decimal digits, as matched by
`re.search(r"(\d{8})", ...)`; `none` when there is no match. -/
def find8Digits : List Char → Option (List Char)
  | [] => none
  | c :: rest =>
    if ((c :: rest).take 8).length = 8 ∧ ((c :: rest).take 8).all Char.isDigit = true then
      some ((c :: rest).take 8)
    else find8Digits rest

/-- Loop body of `check_date_match` (src/util.py lines 147-158), one response
at a time.  `Except.error ()` models the uncaught `AttributeError` raised by
`re.search(...).group(1)` when the header holds neither the substring
"structure" nor an 8-digit token (`re.search` returns `None`). -/
def check_date_match_loop (requested : String) : List Response → Except Unit Bool
  | [] => Except.ok true
  | r :: rs =>
    if strContains r.contentDisposition "structure" then
      check_date_match_loop requested rs
    else
      match find8Digits r.contentDisposition.toList with
      | none => Except.error ()
      | some file_date =>
        if file_date.asString ≠ requested then Except.ok false
        else check_date_match_loop requested rs

/-- `check_date_match(date_string, responses)` (src/util.py lines 136-159).
`date_string.replace("-", "")` is the dash-free form of the requested date. -/
def check_date_match (date_string : String) (responses : List Response) :
    Except Unit Bool :=
  check_date_match_loop ((date_string.toList.filter (fun c => c ≠ '-')).asString)
    responses

/-! ## BatchFetcher (src/util.py, `download_files`, lines 162-210) -/

/-- Externally visible filesystem effects of `download_files`: the
`folder.mkdir(parents=True, exist_ok=True)` call and each `open(...,"wb")` /
`write` of a payload. -/
inductive FsEvent where
  | mkdir (path : String)
  | write (path : String)
deriving DecidableEq

/-- The file writes among a list of filesystem events. -/
def fsWrites (events : List FsEvent) : List FsEvent :=
  events.filter (fun e => match e with
    | FsEvent.write _ => true
    | FsEvent.mkdir _ => false)

/-- The list comprehension `[requests.get(url) for url in urls]` under the
`try` of src/util.py lines 182-183: `none` as soon as any single request
raises a `RequestException`. -/
def fetchAll (fetch : String → Option Response) : List String → Option (List Response)
  | [] => some []
  | u :: us =>
    match fetch u with
    | none => none
    | some r => (fetchAll fetch us).map (fun rs => r :: rs)

/-- Split a character list at every '/', as Python's `split("/")`. -/
def splitSlash : List Char → List (List Char)
  | [] => [[]]
  | c :: rest =>
    if c = '/' then [] :: splitSlash rest
    else
      match splitSlash rest with
      | [] => [[c]]
      | seg :: segs => (c :: seg) :: segs

/-- `response.url.split("/")[-1]` (src/util.py line 203). -/
def lastSegment (url : String) : String :=
  ((splitSlash url.toList).getLastD []).asString

/-- `download_files(date_string)` (src/util.py lines 162-210) over a transport
oracle `fetch`.  Result: the filesystem events it performed, paired with
`Except.ok` of its return value (1 success, 0 failure) or `Except.error ()`
for an exception that escapes it (the `AttributeError` out of
`check_date_match`; only `requests.exceptions.RequestException` is caught,
src/util.py lines 182-188).  A malformed `date_string` makes the `strptime`
in the entry log line (src/util.py line 174) raise before the `mkdir`, hence
`([], Except.error ())`. -/
def download_files (fetch : String → Option Response) (date_string : String) :
    List FsEvent × Except Unit Nat :=
  match url_generation date_string with
  | none => ([], Except.error ())
  | some urls =>
    match fetchAll fetch urls with
    | none => ([FsEvent.mkdir ("downloads/" ++ date_string)], Except.ok 0)
    | some responses =>
      if check_existence responses = false then
        ([FsEvent.mkdir ("downloads/" ++ date_string)], Except.ok 0)
      else
        match check_date_match date_string responses with
        | Except.error e => ([FsEvent.mkdir ("downloads/" ++ date_string)], Except.error e)
        | Except.ok false => ([FsEvent.mkdir ("downloads/" ++ date_string)], Except.ok 0)
        | Except.ok true =>
          (FsEvent.mkdir ("downloads/" ++ date_string) ::
            responses.map (fun r =>
              FsEvent.write ("downloads/" ++ date_string ++ "/" ++ date_string ++ "_"
                ++ lastSegment r.url)),
           Except.ok 1)

/-! ## RangeScheduler (src/util.py, `download_files_within_range`, lines 213-294)

The scheduler is a loop over a state holding the date cursor, the two
counters and the `dates_for_manual_retries` list, instrumented with an event
log of fetcher invocations and backoff sleeps.  The fetcher is abstracted by
an outcome oracle `outcome current_date current_date_fails`, `true` meaning
`download_files` returned 1 and `false` meaning it returned 0 or raised (the
`try`/`except` at lines 257-263 turns any exception into `success_flag = 0`). -/

/-- One element of `dates_for_manual_retries`: a single exhausted date
(`current_date.strftime("%Y-%m-%d")`, line 278) or the aborted trailing
span (`f"{current_date...} ~ {end_date}"`, line 242). -/
inductive Entry where
  | single (day : Int)
  | range (firstDay lastDay : Int)
deriving DecidableEq

/-- Observable scheduler effects: one `download_files(date)` invocation
(`attempt` = the value of `current_date_fails` before the call), or one
`sleep(units)` backoff. -/
inductive SchedEvent where
  | fetch (day : Int) (attempt : Nat)
  | sleep (units : Nat)
deriving DecidableEq

/-- The scheduler's mutable state (src/util.py lines 228-234), plus the
instrumentation log. -/
structure SchedState where
  current : Int
  circuit_breaker_count : Nat
  current_date_fails : Nat
  dates_for_manual_retries : List Entry
  log : List SchedEvent
deriving DecidableEq

/-- Result of one iteration of the `while` body: `done` leaves the loop
(`break` or the `while` condition turning false), `next` goes back to the
top of the loop (`continue` or falling through to the next iteration). -/
inductive StepResult where
  | done (s : SchedState)
  | next (s : SchedState)
deriving DecidableEq

/-- One iteration of the `while current_date <= end_date_obj` loop
(src/util.py lines 235-288), in source order: loop condition; circuit
breaker (threshold 10, lines 238-244); weekend skip (lines 247-250); one
`download_files` attempt; on failure increment both counters and either
sleep `2^current_date_fails` and retry the same date (lines 272-276) or
record the date and advance (lines 277-281); on success clear the breaker
and advance (lines 283-288). -/
def sched_step (outcome : Int → Nat → Bool) (end_day : Int) (s : SchedState) :
    StepResult :=
  if end_day < s.current then
    StepResult.done s
  else if 10 ≤ s.circuit_breaker_count then
    StepResult.done { s with dates_for_manual_retries :=
      s.dates_for_manual_retries ++ [Entry.range s.current end_day] }
  else if 5 ≤ pyWeekday s.current then
    StepResult.next { s with current := s.current + 1 }
  else if outcome s.current s.current_date_fails = false then
    if s.current_date_fails + 1 < 3 then
      StepResult.next { s with
        current_date_fails := s.current_date_fails + 1,
        circuit_breaker_count := s.circuit_breaker_count + 1,
        log := s.log ++ [SchedEvent.fetch s.current s.current_date_fails,
                         SchedEvent.sleep (2 ^ (s.current_date_fails + 1))] }
    else
      StepResult.next { s with
        dates_for_manual_retries := s.dates_for_manual_retries ++ [Entry.single s.current],
        circuit_breaker_count := s.circuit_breaker_count + 1,
        current := s.current + 1,
        current_date_fails := 0,
        log := s.log ++ [SchedEvent.fetch s.current s.current_date_fails] }
  else
    StepResult.next { s with
      circuit_breaker_count := 0,
      current := s.current + 1,
      current_date_fails := 0,
      log := s.log ++ [SchedEvent.fetch s.current s.current_date_fails] }

/-- Iterate `sched_step` until it leaves the loop, with a fuel bound that
`fuelFor` makes large enough for any run (each date consumes at most 3
iterations, plus one final iteration for the exit or the break). -/
def sched_loop (outcome : Int → Nat → Bool) (end_day : Int) :
    Nat → SchedState → SchedState
  | 0, s => s
  | fuel + 1, s =>
    match sched_step outcome end_day s with
    | StepResult.done s1 => s1
    | StepResult.next s1 => sched_loop outcome end_day fuel s1

/-- Fuel that upper-bounds the iteration count of the source loop. -/
def fuelFor (start_day end_day : Int) : Nat :=
  3 * (end_day + 1 - start_day).toNat + 1

/-- The initialization of src/util.py lines 228-234. -/
def initState (start_day : Int) : SchedState :=
  { current := start_day
    circuit_breaker_count := 0
    current_date_fails := 0
    dates_for_manual_retries := []
    log := [] }

/-- Final scheduler state of `download_files_within_range(start, end)` over
an outcome oracle, on already-parsed day numbers. -/
def download_files_within_range_state (outcome : Int → Nat → Bool)
    (start_day end_day : Int) : SchedState :=
  sched_loop outcome end_day (fuelFor start_day end_day) (initState start_day)

/-- What a call to `download_files_within_range` leaves behind: its final
internal state (instrumentation) and its Python return value.  The source
function ends without a `return` statement and its docstring says
"Returns: None" (src/util.py lines 220-222), so `ret` is always `none`:
the accumulated `dates_for_manual_retries` list is only logged
(lines 291-294), never returned. -/
structure RunResult where
  final : SchedState
  ret : Option (List Entry)

/-- `download_files_within_range(start_date, end_date)` (src/util.py lines
213-294) over an outcome oracle, on already-parsed day numbers. -/
def download_files_within_range (outcome : Int → Nat → Bool)
    (start_day end_day : Int) : RunResult :=
  { final := download_files_within_range_state outcome start_day end_day
    ret := none }

/-- `success_flag` as the scheduler computes it from one `download_files`
call: the returned value, or 0 when the call raised (src/util.py lines
256-263). -/
def sched_flag : Except Unit Nat → Nat
  | Except.ok n => n
  | Except.error _ => 0

/-- The scheduler driving the real `download_files` over a transport oracle:
the outcome of a date is `success_flag != 0` for
`download_files(current_date.strftime("%Y-%m-%d"))` (src/util.py lines
253-266). -/
def run_with_fetch (fetch : String → Option Response) (start_day end_day : Int) :
    RunResult :=
  download_files_within_range
    (fun day _ => !(sched_flag (download_files fetch (formatDate day)).2 == 0))
    start_day end_day

/-! ## CLI pipeline (src/sgx_scrap.py, `start_download_pipeline`, lines 11-77) -/

/-- Outcome of `start_download_pipeline`: `parserError` models
`parser.error(msg)`, which prints the message and exits before any download;
`completed` carries the scheduler run. -/
inductive PipelineResult where
  | parserError (msg : String)
  | completed (result : RunResult)

/-- The message of src/sgx_scrap.py lines 68-71. -/
def ordering_error_msg : String :=
  "--historical start date must be earlier or equal to end date in YYYY-MM-DD format."

/-- The message of src/sgx_scrap.py lines 64-65. -/
def format_error_msg : String :=
  "Incorrect/invalid date format, should be YYYY-MM-DD"

/-- The date-validation and dispatch core of `start_download_pipeline`
(src/sgx_scrap.py lines 60-74), after argparse has produced the start and
end date strings: validate the format (`strptime`), validate
`start_date_obj <= end_date_obj`, then call `download_files_within_range`. -/
def start_download_pipeline (outcome : Int → Nat → Bool)
    (start_date_string end_date_string : String) : PipelineResult :=
  match parseDate start_date_string, parseDate end_date_string with
  | some start_day, some end_day =>
    if end_day < start_day then PipelineResult.parserError ordering_error_msg
    else PipelineResult.completed (download_files_within_range outcome start_day end_day)
  | _, _ => PipelineResult.parserError format_error_msg

/-! ## Concrete transport oracles and validation predicates used by the claims -/

/-- One of the validations of `download_files` failed for the date: a
transport fault during the requests, a response failing `check_existence`
(non-200 status or redirect to the error page), or a date mismatch reported
by `check_date_match`. -/
def validation_failed (fetch : String → Option Response) (date_string : String) : Prop :=
  ∃ urls, url_generation date_string = some urls ∧
    (fetchAll fetch urls = none ∨
      ∃ rs, fetchAll fetch urls = some rs ∧
        (check_existence rs = false ∨ check_date_match date_string rs = Except.ok false))

/-- A transport oracle whose every response carries status code 404. -/
def fetch404 : String → Option Response := fun u =>
  some { status_code := 404, url := u, contentDisposition := "", content := "" }

/-- A transport oracle on which every request raises
`requests.exceptions.RequestException`. -/
def faultFetch : String → Option Response := fun _ => none

/-- A transport oracle that answers every URL with a successful response
whose Content-Disposition names a structure file for the structure URLs and
a 2025-01-09-dated data file otherwise. -/
def goodFetch : String → Option Response := fun u =>
  some { status_code := 200, url := u,
         contentDisposition :=
           if strContains u "structure" = true then
             "attachment; filename=TickData_structure.dat"
           else "attachment; filename=WEBPXTICK_DT_20250109.zip",
         content := "payload" }

/-- A transport oracle whose responses succeed but carry a
Content-Disposition header holding neither the substring "structure" nor
any 8-digit token. -/
def badHeaderFetch : String → Option Response := fun u =>
  some { status_code := 200, url := u, contentDisposition := "attachment", content := "" }

/-! ## Helper lemmas about the scheduler loop -/

/-- The fetcher invocations recorded in a scheduler log, as the list of the
dates they were issued for (in order, with one element per invocation). -/
def fetchDays (events : List SchedEvent) : List Int :=
  events.filterMap (fun e => match e with
    | SchedEvent.fetch day _ => some day
    | SchedEvent.sleep _ => none)

/-- An outcome oracle on which every fetch attempt fails. -/
def allFailOutcome : Int → Nat → Bool := fun _ _ => false

/-- An outcome oracle on which every fetch attempt succeeds. -/
def allSuccessOutcome : Int → Nat → Bool := fun _ _ => true

theorem sched_loop_succ (outcome : Int → Nat → Bool) (end_day : Int)
    (fuel : Nat) (s : SchedState) :
    sched_loop outcome end_day (fuel + 1) s =
      match sched_step outcome end_day s with
      | StepResult.done s1 => s1
      | StepResult.next s1 => sched_loop outcome end_day fuel s1 := rfl

theorem sched_loop_done {outcome : Int → Nat → Bool} {end_day : Int}
    {s s1 : SchedState} (fuel : Nat)
    (h : sched_step outcome end_day s = StepResult.done s1) :
    sched_loop outcome end_day (fuel + 1) s = s1 := by
  rw [sched_loop_succ, h]

theorem sched_loop_next {outcome : Int → Nat → Bool} {end_day : Int}
    {s s1 : SchedState} (fuel : Nat)
    (h : sched_step outcome end_day s = StepResult.next s1) :
    sched_loop outcome end_day (fuel + 1) s = sched_loop outcome end_day fuel s1 := by
  rw [sched_loop_succ, h]

theorem sched_step_exit (outcome : Int → Nat → Bool) (end_day : Int)
    (s : SchedState) (h : end_day < s.current) :
    sched_step outcome end_day s = StepResult.done s := by
  unfold sched_step
  rw [if_pos h]

theorem sched_step_break (outcome : Int → Nat → Bool) (end_day cur : Int)
    (cb df : Nat) (mr : List Entry) (lg : List SchedEvent)
    (h1 : cur ≤ end_day) (h2 : 10 ≤ cb) :
    sched_step outcome end_day ⟨cur, cb, df, mr, lg⟩ =
      StepResult.done ⟨cur, cb, df, mr ++ [Entry.range cur end_day], lg⟩ := by
  unfold sched_step
  rw [if_neg (not_lt.mpr h1), if_pos h2]

theorem sched_step_weekend (outcome : Int → Nat → Bool) (end_day cur : Int)
    (cb df : Nat) (mr : List Entry) (lg : List SchedEvent)
    (h1 : cur ≤ end_day) (h2 : cb < 10) (h3 : 5 ≤ pyWeekday cur) :
    sched_step outcome end_day ⟨cur, cb, df, mr, lg⟩ =
      StepResult.next ⟨cur + 1, cb, df, mr, lg⟩ := by
  unfold sched_step
  rw [if_neg (not_lt.mpr h1), if_neg (Nat.not_le.mpr h2), if_pos h3]

theorem sched_step_fail_retry (outcome : Int → Nat → Bool) (end_day cur : Int)
    (cb df : Nat) (mr : List Entry) (lg : List SchedEvent)
    (h1 : cur ≤ end_day) (h2 : cb < 10) (h3 : pyWeekday cur < 5)
    (h4 : outcome cur df = false) (h5 : df + 1 < 3) :
    sched_step outcome end_day ⟨cur, cb, df, mr, lg⟩ =
      StepResult.next ⟨cur, cb + 1, df + 1, mr,
        lg ++ [SchedEvent.fetch cur df, SchedEvent.sleep (2 ^ (df + 1))]⟩ := by
  unfold sched_step
  rw [if_neg (not_lt.mpr h1), if_neg (Nat.not_le.mpr h2), if_neg (not_le.mpr h3),
    if_pos h4, if_pos h5]

theorem sched_step_giveup (outcome : Int → Nat → Bool) (end_day cur : Int)
    (cb df : Nat) (mr : List Entry) (lg : List SchedEvent)
    (h1 : cur ≤ end_day) (h2 : cb < 10) (h3 : pyWeekday cur < 5)
    (h4 : outcome cur df = false) (h5 : ¬ df + 1 < 3) :
    sched_step outcome end_day ⟨cur, cb, df, mr, lg⟩ =
      StepResult.next ⟨cur + 1, cb + 1, 0, mr ++ [Entry.single cur],
        lg ++ [SchedEvent.fetch cur df]⟩ := by
  unfold sched_step
  rw [if_neg (not_lt.mpr h1), if_neg (Nat.not_le.mpr h2), if_neg (not_le.mpr h3),
    if_pos h4, if_neg h5]

theorem sched_step_success (outcome : Int → Nat → Bool) (end_day cur : Int)
    (cb df : Nat) (mr : List Entry) (lg : List SchedEvent)
    (h1 : cur ≤ end_day) (h2 : cb < 10) (h3 : pyWeekday cur < 5)
    (h4 : outcome cur df = true) :
    sched_step outcome end_day ⟨cur, cb, df, mr, lg⟩ =
      StepResult.next ⟨cur + 1, 0, 0, mr, lg ++ [SchedEvent.fetch cur df]⟩ := by
  unfold sched_step
  rw [if_neg (not_lt.mpr h1), if_neg (Nat.not_le.mpr h2), if_neg (not_le.mpr h3),
    if_neg (by simp [h4])]

/-! ## Claims about the key estimator -/

/-- Claim C5: the key estimator computes, for every date, `anchor_index +
days_diff - 2*floor(days_diff/7)` with anchor 2025-01-06 mapped to 5849; in
particular `estimate("2025-01-09") = 5852`, `estimate("2025-01-10") = 5853`
and `estimate("2025-01-13") = 5854`. -/
theorem claim_C5 :
    (∀ (s : String) (t : Int), parseDate s = some t →
      estimate_date_index s =
        some (5849 + (t - daysFromCivil 2025 1 6)
          - 2 * Int.fdiv (t - daysFromCivil 2025 1 6) 7))
    ∧ estimate_date_index "2025-01-09" = some 5852
    ∧ estimate_date_index "2025-01-10" = some 5853
    ∧ estimate_date_index "2025-01-13" = some 5854 := by
  refine ⟨?_, by decide, by decide, by decide⟩
  intro s t h
  simp [estimate_date_index, h, date_index, initial_index, initial_date]

/-- Witness for C5: the universal part applied at the concrete date
"2025-01-09" (day number 20097). -/
theorem claim_C5_witness :
    estimate_date_index "2025-01-09" =
      some (5849 + ((20097 : Int) - daysFromCivil 2025 1 6)
        - 2 * Int.fdiv ((20097 : Int) - daysFromCivil 2025 1 6) 7) :=
  claim_C5.1 "2025-01-09" 20097 (by decide)

/-- Claim C6: for every weekday date `t` whose successor `t+1` is also a
weekday in the same anchor-relative week, the estimate of `t+1` is one more
than the estimate of `t`; and for every Friday `t`, the estimate of the
following Monday (`t+3`) is one more than the estimate of `t` — given the
Monday anchor 2025-01-06. -/
theorem claim_C6 :
    (∀ t : Int, pyWeekday t < 5 → pyWeekday (t + 1) < 5 →
      Int.fdiv (t + 1 - initial_date) 7 = Int.fdiv (t - initial_date) 7 →
      date_index (t + 1) = date_index t + 1)
    ∧ (∀ t : Int, pyWeekday t = 4 → date_index (t + 3) = date_index t + 1) := by
  have ha : initial_date = 20094 := by decide
  constructor
  · intro t h1 h2 h3
    simp only [date_index, initial_index, ha] at h3 ⊢
    omega
  · intro t h4
    simp only [date_index, initial_index, ha]
    simp only [pyWeekday] at h4
    have e1 : Int.fdiv (t + 3 - 20094) 7 = (t + 3 - 20094) / 7 :=
      Int.fdiv_eq_ediv _ (by norm_num)
    have e2 : Int.fdiv (t - 20094) 7 = (t - 20094) / 7 :=
      Int.fdiv_eq_ediv _ (by norm_num)
    rw [e1, e2]
    omega

/-- Witness for C6: both parts applied concretely — Thursday 2025-01-09 to
Friday 2025-01-10 within one anchor week, and Friday 2025-01-10 to Monday
2025-01-13 across a weekend. -/
theorem claim_C6_witness :
    date_index (daysFromCivil 2025 1 9 + 1) = date_index (daysFromCivil 2025 1 9) + 1
    ∧ date_index (daysFromCivil 2025 1 10 + 3) = date_index (daysFromCivil 2025 1 10) + 1 :=
  ⟨claim_C6.1 (daysFromCivil 2025 1 9) (by decide) (by decide) (by decide),
   claim_C6.2 (daysFromCivil 2025 1 10) (by decide)⟩

/-! ## Claims about the range scheduler -/

/-- Claim C1, amended.  The original claim said the consecutive-failure
counter is incremented once per exhausted or failing date (not once per
low-level retry attempt), so that the abort comes exactly after 10 dates in
a row end in exhausted retries.  In the source every failed `download_files`
call — retries of the same date included — increments
`circuit_breaker_count` by exactly one (part 2), and as soon as the counter
is at the threshold 10 at the top of an iteration with the range not yet
finished, the scheduler aborts, recording the span from the current date
through the end date as a single unresolved entry and performing no further
fetch (part 1). -/
theorem claim_C1 (outcome : Int → Nat → Bool) (end_day cur : Int) (cb df : Nat)
    (mr : List Entry) (lg : List SchedEvent) (h1 : cur ≤ end_day) :
    (10 ≤ cb →
      sched_step outcome end_day ⟨cur, cb, df, mr, lg⟩ =
        StepResult.done ⟨cur, cb, df, mr ++ [Entry.range cur end_day], lg⟩)
    ∧ (cb < 10 → pyWeekday cur < 5 → outcome cur df = false →
      ∃ s1 : SchedState,
        sched_step outcome end_day ⟨cur, cb, df, mr, lg⟩ = StepResult.next s1
        ∧ s1.circuit_breaker_count = cb + 1) := by
  constructor
  · intro h2
    exact sched_step_break outcome end_day cur cb df mr lg h1 h2
  · intro h2 h3 h4
    by_cases h5 : df + 1 < 3
    · exact ⟨_, sched_step_fail_retry outcome end_day cur cb df mr lg h1 h2 h3 h4 h5, rfl⟩
    · exact ⟨_, sched_step_giveup outcome end_day cur cb df mr lg h1 h2 h3 h4 h5, rfl⟩

/-- Witness for C1: the abort step applied concretely — counter at the
threshold on Thursday 2025-01-09 (day 20097) with the range ending Friday
2025-01-24 (day 20112). -/
theorem claim_C1_witness :
    sched_step allFailOutcome 20112 ⟨20097, 10, 0, [], []⟩ =
      StepResult.done ⟨20097, 10, 0, [Entry.range 20097 20112], []⟩ :=
  (claim_C1 allFailOutcome 20112 20097 10 0 [] [] (by decide)).1 (by decide)

/-- Counterexample for C1 as stated: over the range Monday 2025-01-06 (day
20094) to Friday 2025-01-24 (day 20112) — 15 weekdays — with every fetch
attempt failing, the scheduler aborts after only 3 dates have exhausted
their retries (Jan 6, 7, 8) and one attempt has been made on the 4th (Jan
9): 10 fetch invocations in total, not 10 exhausted dates.  The trailing
unresolved range starts at Jan 9, which under the claimed once-per-date
counting could not happen before the 10th failing date. -/
theorem claim_C1_counterexample :
    (download_files_within_range allFailOutcome (daysFromCivil 2025 1 6)
        (daysFromCivil 2025 1 24)).final.dates_for_manual_retries
      = [Entry.single (daysFromCivil 2025 1 6), Entry.single (daysFromCivil 2025 1 7),
         Entry.single (daysFromCivil 2025 1 8),
         Entry.range (daysFromCivil 2025 1 9) (daysFromCivil 2025 1 24)]
    ∧ fetchDays (download_files_within_range allFailOutcome (daysFromCivil 2025 1 6)
        (daysFromCivil 2025 1 24)).final.log
      = [20094, 20094, 20094, 20095, 20095, 20095, 20096, 20096, 20096, 20097]
    ∧ (download_files_within_range allFailOutcome (daysFromCivil 2025 1 6)
        (daysFromCivil 2025 1 24)).final.circuit_breaker_count = 10 :=
  ⟨rfl, rfl, rfl⟩

/-- Claim C2, amended.  The original claim said an all-failing weekday date
is attempted exactly 3 times with backoff sleeps of 2, 4 and 8 time units
between attempts.  In the source a date whose every attempt fails is indeed
attempted exactly 3 times and then recorded as a single unresolved entry
before the cursor advances, but only two sleeps separate the three
attempts — of 2^1 = 2 and 2^2 = 4 time units; no sleep of 8 occurs because
after the third failure the scheduler moves on instead of sleeping.  (The
date must start with a clean per-date counter and the circuit-breaker
counter at most 7, so the breaker does not fire during the retries.) -/
theorem claim_C2 (outcome : Int → Nat → Bool) (end_day cur : Int) (cb : Nat)
    (mr : List Entry) (lg : List SchedEvent) (fuel : Nat)
    (h1 : cur ≤ end_day) (h2 : cb ≤ 7) (h3 : pyWeekday cur < 5)
    (hout : ∀ n, outcome cur n = false) :
    sched_loop outcome end_day (fuel + 3) ⟨cur, cb, 0, mr, lg⟩ =
      sched_loop outcome end_day fuel
        ⟨cur + 1, cb + 3, 0, mr ++ [Entry.single cur],
         lg ++ [SchedEvent.fetch cur 0, SchedEvent.sleep 2,
                SchedEvent.fetch cur 1, SchedEvent.sleep 4,
                SchedEvent.fetch cur 2]⟩ := by
  rw [show fuel + 3 = fuel + 2 + 1 from rfl,
    sched_loop_next (fuel + 2)
      (sched_step_fail_retry outcome end_day cur cb 0 mr lg h1 (by omega) h3
        (hout 0) (by omega)),
    show fuel + 2 = fuel + 1 + 1 from rfl,
    sched_loop_next (fuel + 1)
      (sched_step_fail_retry outcome end_day cur (cb + 1) (0 + 1) mr
        (lg ++ [SchedEvent.fetch cur 0, SchedEvent.sleep (2 ^ (0 + 1))]) h1 (by omega) h3
        (hout (0 + 1)) (by omega)),
    sched_loop_next fuel
      (sched_step_giveup outcome end_day cur (cb + 1 + 1) (0 + 1 + 1) mr
        (lg ++ [SchedEvent.fetch cur 0, SchedEvent.sleep (2 ^ (0 + 1))]
            ++ [SchedEvent.fetch cur (0 + 1), SchedEvent.sleep (2 ^ (0 + 1 + 1))]) h1
        (by omega) h3 (hout (0 + 1 + 1)) (by omega))]
  norm_num [List.append_assoc]

/-- Witness for C2: the three-attempt trace applied concretely to Thursday
2025-01-09 (day 20097) as a one-day range with zero fuel left afterwards. -/
theorem claim_C2_witness :
    sched_loop allFailOutcome 20097 3 ⟨20097, 0, 0, [], []⟩ =
      ⟨20098, 3, 0, [Entry.single 20097],
       [SchedEvent.fetch 20097 0, SchedEvent.sleep 2,
        SchedEvent.fetch 20097 1, SchedEvent.sleep 4,
        SchedEvent.fetch 20097 2]⟩ :=
  claim_C2 allFailOutcome 20097 20097 0 [] [] 0 (by decide) (by decide) (by decide)
    (fun _ => rfl)

/-- Counterexample for C2 as stated: the full run over the one-day range
2025-01-09 with every attempt failing performs exactly the sleep sequence
2, 4 — a backoff of 8 time units never occurs. -/
theorem claim_C2_counterexample :
    (download_files_within_range allFailOutcome (daysFromCivil 2025 1 9)
        (daysFromCivil 2025 1 9)).final.log
      = [SchedEvent.fetch 20097 0, SchedEvent.sleep 2,
         SchedEvent.fetch 20097 1, SchedEvent.sleep 4,
         SchedEvent.fetch 20097 2]
    ∧ (download_files_within_range allFailOutcome (daysFromCivil 2025 1 9)
        (daysFromCivil 2025 1 9)).final.dates_for_manual_retries
      = [Entry.single 20097]
    ∧ ((download_files_within_range allFailOutcome (daysFromCivil 2025 1 9)
        (daysFromCivil 2025 1 9)).final.log.contains (SchedEvent.sleep 8)) = false :=
  ⟨rfl, rfl, rfl⟩

/-- Claim C4: with a start date after the end date, the CLI pipeline rejects
the pair with the ordering `parser.error` before any download, and the
scheduler loop itself, run on such a pair, performs zero fetch attempts and
terminates in its initial state. -/
theorem claim_C4 (outcome : Int → Nat → Bool) (start_s end_s : String)
    (start_day end_day : Int) (hs : parseDate start_s = some start_day)
    (he : parseDate end_s = some end_day) (hlt : end_day < start_day) :
    start_download_pipeline outcome start_s end_s
      = PipelineResult.parserError ordering_error_msg
    ∧ (download_files_within_range outcome start_day end_day).final
      = initState start_day
    ∧ fetchDays (download_files_within_range outcome start_day end_day).final.log
      = [] := by
  have hfin : (download_files_within_range outcome start_day end_day).final
      = initState start_day := by
    show download_files_within_range_state outcome start_day end_day = initState start_day
    unfold download_files_within_range_state fuelFor
    have h0 : (end_day + 1 - start_day).toNat = 0 := by omega
    rw [h0]
    exact sched_loop_done 0 (sched_step_exit outcome end_day (initState start_day) hlt)
  refine ⟨?_, hfin, by rw [hfin]; rfl⟩
  unfold start_download_pipeline
  rw [hs, he]
  exact if_pos hlt

/-- Witness for C4: the ordering rejection applied to the concrete pair
("2025-02-01", "2025-01-01") — day numbers 20120 and 20089. -/
theorem claim_C4_witness :
    start_download_pipeline allFailOutcome "2025-02-01" "2025-01-01"
      = PipelineResult.parserError ordering_error_msg
    ∧ fetchDays (download_files_within_range allFailOutcome 20120 20089).final.log
      = [] :=
  ⟨(claim_C4 allFailOutcome "2025-02-01" "2025-01-01" 20120 20089 (by decide) (by decide)
      (by decide)).1,
   (claim_C4 allFailOutcome "2025-02-01" "2025-01-01" 20120 20089 (by decide) (by decide)
      (by decide)).2.2⟩

/-- Claim C8: a Saturday or Sunday under the cursor is skipped by advancing
the cursor only — no fetcher invocation, and the per-date attempt counter,
consecutive-failure counter, unresolved list and event log are all left
unchanged (universal part); and over the concrete range Friday 2025-01-10
to Monday 2025-01-13 with all attempts succeeding, exactly the two weekday
dates are attempted. -/
theorem claim_C8 :
    (∀ (outcome : Int → Nat → Bool) (end_day cur : Int) (cb df : Nat)
        (mr : List Entry) (lg : List SchedEvent),
      cur ≤ end_day → cb < 10 → 5 ≤ pyWeekday cur →
      sched_step outcome end_day ⟨cur, cb, df, mr, lg⟩ =
        StepResult.next ⟨cur + 1, cb, df, mr, lg⟩)
    ∧ fetchDays (download_files_within_range allSuccessOutcome
        (daysFromCivil 2025 1 10) (daysFromCivil 2025 1 13)).final.log
      = [daysFromCivil 2025 1 10, daysFromCivil 2025 1 13] :=
  ⟨fun outcome end_day cur cb df mr lg h1 h2 h3 =>
    sched_step_weekend outcome end_day cur cb df mr lg h1 h2 h3, rfl⟩

/-- Witness for C8: the weekend-skip step applied concretely to Saturday
2025-01-11 (day 20099) inside the range ending Monday 2025-01-13 (day
20101). -/
theorem claim_C8_witness :
    sched_step allSuccessOutcome 20101 ⟨20099, 0, 0, [], []⟩ =
      StepResult.next ⟨20100, 0, 0, [], []⟩ :=
  claim_C8.1 allSuccessOutcome 20101 20099 0 0 [] [] (by decide) (by decide) (by decide)

/-! ## Claims about the batch fetcher -/

/-- Claim C3: whenever any one of the validations fails for a date,
`download_files` returns the failure outcome 0 and performs no file write —
its only filesystem event is the directory creation, so the date's output
directory holds zero files afterwards. -/
theorem claim_C3 (fetch : String → Option Response) (date_string : String)
    (h : validation_failed fetch date_string) :
    (download_files fetch date_string).2 = Except.ok 0
    ∧ fsWrites (download_files fetch date_string).1 = [] := by
  obtain ⟨urls, hu, hrest⟩ := h
  unfold download_files
  simp only [hu]
  rcases hrest with hnone | ⟨rs, hrs, hbad⟩
  · simp only [hnone]
    constructor <;> trivial
  · simp only [hrs]
    rcases hbad with hex | hdm
    · rw [if_pos hex]
      constructor <;> trivial
    · by_cases hex : check_existence rs = false
      · rw [if_pos hex]
        constructor <;> trivial
      · rw [if_neg hex]
        simp only [hdm]
        constructor <;> trivial

/-- Witness for C3: the 404 transport oracle on "2025-01-09" fails the
existence validation, so the call returns 0 and writes nothing. -/
theorem claim_C3_witness :
    (download_files fetch404 "2025-01-09").2 = Except.ok 0
    ∧ fsWrites (download_files fetch404 "2025-01-09").1 = [] :=
  claim_C3 fetch404 "2025-01-09"
    ⟨(url_generation "2025-01-09").getD [], rfl,
     Or.inr ⟨(fetchAll fetch404 ((url_generation "2025-01-09").getD [])).getD [], rfl,
       Or.inl rfl⟩⟩

/-- Counterexample for C9 as stated: on a transport fault for "2025-01-09" —
every validation failed, nothing persisted — `download_files` has already
created the per-date output directory, an externally visible side effect
that precedes every validation. -/
theorem claim_C9_counterexample :
    (download_files faultFetch "2025-01-09").1 = [FsEvent.mkdir "downloads/2025-01-09"]
    ∧ (download_files faultFetch "2025-01-09").2 = Except.ok 0 :=
  ⟨rfl, rfl⟩

theorem fsWrites_mkdir_cons (d : String) (l : List FsEvent) :
    fsWrites (FsEvent.mkdir d :: l) = fsWrites l := by
  simp [fsWrites, List.filter_cons]

theorem fsWrites_map (g : Response → String) (rs : List Response) :
    fsWrites (rs.map (fun r => FsEvent.write (g r)))
      = rs.map (fun r => FsEvent.write (g r)):= by
  induction rs with
  | nil => rfl
  | cons r rest ih =>
    simp only [fsWrites] at ih
    simp [fsWrites, List.filter_cons, ih]

/-- Claim C9, amended.  The original claim said persisting the payloads is
the only externally visible side effect and that none — including creation
of the per-date output directory — begins until every validation has
passed.  In the source the per-date directory is created unconditionally at
entry, before any request is issued; apart from that `mkdir`, the file
writes are the only externally visible effects and they happen only when
every validation has passed for all four resources (return value 1). -/
theorem claim_C9 (fetch : String → Option Response) (date_string : String)
    (urls : List String) (hu : url_generation date_string = some urls) :
    (download_files fetch date_string).1 =
      FsEvent.mkdir ("downloads/" ++ date_string)
        :: fsWrites (download_files fetch date_string).1
    ∧ (fsWrites (download_files fetch date_string).1 ≠ [] →
        (download_files fetch date_string).2 = Except.ok 1) := by
  unfold download_files
  simp only [hu]
  cases hfa : fetchAll fetch urls with
  | none =>
    simp only [hfa]
    exact ⟨rfl, fun hne => absurd rfl hne⟩
  | some rs =>
    simp only [hfa]
    by_cases hex : check_existence rs = false
    · rw [if_pos hex]
      exact ⟨rfl, fun hne => absurd rfl hne⟩
    · rw [if_neg hex]
      cases hdm : check_date_match date_string rs with
      | error e =>
        simp only [hdm]
        exact ⟨rfl, fun hne => absurd rfl hne⟩
      | ok b =>
        cases b with
        | false =>
          simp only [hdm]
          exact ⟨rfl, fun hne => absurd rfl hne⟩
        | true =>
          simp only [hdm]
          constructor
          · rw [fsWrites_mkdir_cons, fsWrites_map]
          · intro _
            trivial

/-- Witness for C9: the amended shape applied to the all-success oracle on
"2025-01-09" — the event list is the directory creation followed by the
writes, and writes being present forces the success return value. -/
theorem claim_C9_witness :
    (download_files goodFetch "2025-01-09").1 =
      FsEvent.mkdir ("downloads/" ++ "2025-01-09")
        :: fsWrites (download_files goodFetch "2025-01-09").1
    ∧ (fsWrites (download_files goodFetch "2025-01-09").1 ≠ [] →
        (download_files goodFetch "2025-01-09").2 = Except.ok 1) :=
  claim_C9 goodFetch "2025-01-09" ((url_generation "2025-01-09").getD []) rfl

/-- Counterexample for C7 as stated: in the all-success scenario on the
one-day range 2025-01-09, the source function's return value is `None` —
the (empty) unresolved list lives only in its internal state and is never
returned to the caller. -/
theorem claim_C7_counterexample :
    (run_with_fetch goodFetch (daysFromCivil 2025 1 9) (daysFromCivil 2025 1 9)).ret
      = none
    ∧ (run_with_fetch goodFetch (daysFromCivil 2025 1 9)
        (daysFromCivil 2025 1 9)).final.dates_for_manual_retries = [] :=
  ⟨rfl, rfl⟩

/-- Claim C7, amended.  The original claim said the range operation returns
the accumulated unresolved list to its caller; the source function returns
`None` and only accumulates and logs that list internally.  In the scenario
`run("2025-01-09", "2025-01-09")` with all four resources succeeding and
matching the date, the internal unresolved list ends empty, the fetcher is
invoked once (for 2025-01-09), and `download_files` persists exactly 4
files under the `downloads/2025-01-09` directory, each named
`<date>_<resource-file-name>`. -/
theorem claim_C7 :
    (run_with_fetch goodFetch (daysFromCivil 2025 1 9)
        (daysFromCivil 2025 1 9)).final.dates_for_manual_retries = []
    ∧ fetchDays (run_with_fetch goodFetch (daysFromCivil 2025 1 9)
        (daysFromCivil 2025 1 9)).final.log = [daysFromCivil 2025 1 9]
    ∧ download_files goodFetch "2025-01-09" =
        ([FsEvent.mkdir "downloads/2025-01-09",
          FsEvent.write "downloads/2025-01-09/2025-01-09_WEBPXTICK_DT.zip",
          FsEvent.write "downloads/2025-01-09/2025-01-09_TickData_structure.dat",
          FsEvent.write "downloads/2025-01-09/2025-01-09_TC.txt",
          FsEvent.write "downloads/2025-01-09/2025-01-09_TC_structure.dat"],
         Except.ok 1)
    ∧ (fsWrites (download_files goodFetch "2025-01-09").1).length = 4 :=
  ⟨rfl, rfl, rfl, rfl⟩

/-- Claim C10: on a response whose Content-Disposition contains neither
"structure" nor an 8-digit token, `check_date_match` raises (`Except.error`)
instead of returning `False`; `download_files` does not catch this — the
exception escapes it — and only the scheduler's catch-all `except Exception`
turns it into the failure flag 0, after which the date is handled like any
failing date (three attempts, then recorded as unresolved). -/
theorem claim_C10 :
    check_date_match "2025-01-09"
        [{ status_code := 200, url := "u", contentDisposition := "attachment",
           content := "" }] = Except.error ()
    ∧ (download_files badHeaderFetch "2025-01-09").2 = Except.error ()
    ∧ (download_files badHeaderFetch "2025-01-09").1
        = [FsEvent.mkdir "downloads/2025-01-09"]
    ∧ sched_flag (download_files badHeaderFetch "2025-01-09").2 = 0
    ∧ (run_with_fetch badHeaderFetch (daysFromCivil 2025 1 9)
        (daysFromCivil 2025 1 9)).final.dates_for_manual_retries
      = [Entry.single (daysFromCivil 2025 1 9)]
    ∧ fetchDays (run_with_fetch badHeaderFetch (daysFromCivil 2025 1 9)
        (daysFromCivil 2025 1 9)).final.log
      = [daysFromCivil 2025 1 9, daysFromCivil 2025 1 9, daysFromCivil 2025 1 9] :=
  ⟨rfl, rfl, rfl, rfl, rfl, rfl⟩

end SGX
